import Mathlib

/-!
Verification of the session / delta-broadcasting core of the
`streamlit/proxy/ProxyConnection.py` module.

The `ProxyConnection` class and its helper functions are embedded as pure
Lean definitions; Python object mutation becomes explicit state passing.
The `ReportQueue` class (the Delta Log) lives in a module that is not part
of the sources at hand, so it is modelled from the specification's
description of the Delta Log component.
-/

set_option maxRecDepth 4000

/-- A delta: one opaque, immutable incremental-update record; the only
observation the code makes of it is `SerializeToString`, so it is modelled
as the serialized byte string it carries. -/
structure Delta where
  bytes : String
deriving DecidableEq, Repr

/-- Embeds `delta.SerializeToString()`: the serialized form of a delta. -/
def Delta.SerializeToString (d : Delta) : String := d.bytes

/-- Modelled from the spec: the `ReportQueue` class (the Delta Log) is not
among the sources; per the spec it is an append-only, clonable, closeable
ordered sequence of deltas with a closed/open flag. -/
structure ReportQueue where
  deltas : List Delta
  closed : Bool
deriving DecidableEq, Repr

/-- Modelled from the spec: a Delta Log is created empty and open. -/
def ReportQueue.new : ReportQueue := ⟨[], false⟩

/-- Modelled from the spec: `append(delta)` (written `queue(delta)` at call
sites) fails silently (no-op) if the log is closed; otherwise stores the
delta in order. -/
def ReportQueue.append (q : ReportQueue) (d : Delta) : ReportQueue :=
  if q.closed then q else { q with deltas := q.deltas ++ [d] }

/-- Modelled from the spec: `clone()` returns a new, independently mutable
log instance containing a copy of every delta currently present, in the
same order. -/
def ReportQueue.clone (q : ReportQueue) : ReportQueue := ⟨q.deltas, false⟩

/-- Modelled from the spec: `close()` flips the closed flag; idempotent. -/
def ReportQueue.close (q : ReportQueue) : ReportQueue := { q with closed := true }

/-- Modelled from the spec: `get_deltas()` (drain) returns all stored
deltas in append order and clears internal storage. -/
def ReportQueue.get_deltas (q : ReportQueue) : List Delta × ReportQueue :=
  (q.deltas, { q with deltas := [] })

/-- The fields of the `new_report_msg` protobuf that `ProxyConnection.__init__`
reads: id, cwd, command line and source file path. -/
structure NewReportMsg where
  id : String
  cwd : String
  command_line : List String
  source_file_path : String
deriving DecidableEq, Repr

/-- The filesystem observer that `_initialize_fs_observer` returns when
`Observer.start()` succeeds; it remembers the mode it was scheduled in. -/
structure FsObserver where
  recursive : Bool
deriving DecidableEq, Repr

/-- Modelled from the spec: the configuration options that
`config.get_option` serves (the `config` module is not among the sources).
Pattern lists are opaque to the logic under verification. -/
structure Config where
  watchFileSystem : Bool
  watchUpdatesRecursively : Bool
  watchPatterns : List String
  ignorePatterns : List String
deriving DecidableEq, Repr

/-- Modelled from the spec: whether `Observer.start()` raises `OSError`
depends on the environment; it is abstracted as an oracle giving the
outcome of a start attempt in each mode (argument: the recursive flag). -/
def StartOracle : Type := Bool → Bool

/-- Embeds the module-level `_initialize_fs_observer`: schedules an observer
for the path in the given mode and starts it; on `OSError` the observer
becomes `None` (here `none`). Logging is ignored. -/
def _initialize_fs_observer (startOk : StartOracle) (recursive : Bool) :
    Option FsObserver :=
  if startOk recursive then some ⟨recursive⟩ else none

/-- Embeds `ProxyConnection._initialize_fs_observer_with_fallback`: returns
`None` when watching is off; otherwise tries the configured mode, and when
that yields `None` and the configured mode was recursive, retries once in
non-recursive mode. -/
def _initialize_fs_observer_with_fallback (cfg : Config) (startOk : StartOracle) :
    Option FsObserver :=
  if ¬ cfg.watchFileSystem then none
  else
    let recursive := cfg.watchUpdatesRecursively
    let fs_observer := _initialize_fs_observer startOk recursive
    match fs_observer with
    | some o => some o
    | none => if recursive = true then _initialize_fs_observer startOk false else none

/-- The state of a `ProxyConnection` object: report identity and launch
data, the producer flag, the grace-period flag, the master queue, the
client queues (the list models Python list identity by position) and the
filesystem observer. -/
structure ProxyConnection where
  id : String
  cwd : String
  command_line : List String
  source_file_path : String
  name : String
  has_local : Bool
  in_grace_period : Bool
  master_queue : ReportQueue
  client_queues : List ReportQueue
  fs_observer : Option FsObserver
deriving DecidableEq, Repr

namespace ProxyConnection

/-- Embeds `ProxyConnection.__init__(new_report_msg, name)`. -/
def new (cfg : Config) (startOk : StartOracle) (msg : NewReportMsg)
    (name : String) : ProxyConnection :=
  { id := msg.id
    cwd := msg.cwd
    command_line := msg.command_line
    source_file_path := msg.source_file_path
    name := name
    has_local := true
    in_grace_period := true
    master_queue := ReportQueue.new
    client_queues := []
    fs_observer := _initialize_fs_observer_with_fallback cfg startOk }

/-- Embeds `finished_local_connection`: clears the local flag, closes the
master queue and every client queue. -/
def finished_local_connection (c : ProxyConnection) : ProxyConnection :=
  { c with
    has_local := false
    master_queue := c.master_queue.close
    client_queues := c.client_queues.map ReportQueue.close }

/-- Embeds `end_grace_period`. -/
def end_grace_period (c : ProxyConnection) : ProxyConnection :=
  { c with in_grace_period := false }

/-- Embeds `can_be_deregistered`. -/
def can_be_deregistered (c : ProxyConnection) : Bool :=
  let has_clients : Bool := c.client_queues.length > 0
  !(c.in_grace_period || c.has_local || has_clients)

/-- Embeds `enqueue(delta)`: appends to the master queue, then to every
client queue. -/
def enqueue (c : ProxyConnection) (delta : Delta) : ProxyConnection :=
  { c with
    master_queue := c.master_queue.append delta
    client_queues := c.client_queues.map (·.append delta) }

/-- Embeds `add_client_queue`: ends the grace period, clones the master
queue, appends the clone to the client queue list and returns it (the
returned index records which list position is the new queue, standing for
Python object identity). -/
def add_client_queue (c : ProxyConnection) : ProxyConnection × ReportQueue × Nat :=
  let c1 := c.end_grace_period
  let new_queue := c1.master_queue.clone
  ({ c1 with client_queues := c1.client_queues ++ [new_queue] }, new_queue,
    c1.client_queues.length)

/-- Embeds `remove_client_queue(queue)`: Python's `list.remove` deletes the
first matching element and raises `ValueError` when none is present. -/
def remove_client_queue (c : ProxyConnection) (queue : ReportQueue) :
    Except String ProxyConnection :=
  if c.client_queues.contains queue then
    Except.ok { c with client_queues := c.client_queues.eraseP (· == queue) }
  else
    Except.error "ValueError"

end ProxyConnection

/-- Embeds `ProxyConnection.close`: stops the filesystem observer thread
and joins it (external effects on the watcher thread); no field of the
connection object is reassigned. -/
def ProxyConnection.close (c : ProxyConnection) : ProxyConnection := c

/-- One character of `json.dumps` string escaping (quote and backslash; the
names and ids at hand contain no control characters). -/
def jsonEscapeChar (c : Char) : String :=
  if c = '"' then "\\\"" else if c = '\\' then "\\\\" else String.singleton c

/-- A JSON string literal as `json.dumps` renders it. -/
def jsonQuote (s : String) : String :=
  "\"" ++ String.join (s.data.map jsonEscapeChar) ++ "\""

/-- The manifest dict `dict(name=…, local_id=…, nDeltas=…)` rendered by
`json.dumps` (insertion order, default separators). -/
def json_dumps_manifest (name local_id : String) (nDeltas : Nat) : String :=
  "\x7b" ++ jsonQuote "name" ++ ": " ++ jsonQuote name ++ ", " ++
    jsonQuote "local_id" ++ ": " ++ jsonQuote local_id ++ ", " ++
    jsonQuote "nDeltas" ++ ": " ++ toString nDeltas ++ "\x7d"

/-- Embeds `ProxyConnection.serialize_report_to_files`: drains a `clone()`
of the master queue and returns the manifest entry followed by one entry
per delta. `get_local_id()` lives in a utility module not among the
sources, so the process-local id string is taken as a parameter. The
connection state after the call is returned alongside the entries: no
field of the object is reassigned by the method. -/
def ProxyConnection.serialize_report_to_files (local_id : String)
    (c : ProxyConnection) : List (String × String) × ProxyConnection :=
  let deltas := (c.master_queue.clone.get_deltas).1
  let manifest := json_dumps_manifest c.name local_id deltas.length
  (("reports/" ++ c.id ++ "/manifest.json", manifest) ::
    deltas.enum.map (fun p =>
      ("reports/" ++ c.id ++ "/" ++ toString p.1 ++ ".delta",
        p.2.SerializeToString)),
    c)

/-- Enqueue a whole list of deltas in order. -/
def enqueueAll (c : ProxyConnection) (ds : List Delta) : ProxyConnection :=
  ds.foldl ProxyConnection.enqueue c

/-- The type of a filesystem event as the handler sees it. -/
inductive EventType where
  | created | modified | moved | deleted
deriving DecidableEq, Repr

/-- A filesystem event: its type and source path. -/
structure FsEvent where
  event_type : EventType
  src_path : String
deriving DecidableEq, Repr

/-- An observable process action of the re-run trigger: spawning the stored
command line in the stored working directory, or waiting for the spawned
process to exit. -/
inductive ProcAction where
  | spawn (command_line : List String) (cwd : String)
  | waitExit
deriving DecidableEq, Repr

/-- Embeds `FSEventHandler.on_any_event`: the catch-all handler calls
`fn_to_run` on the event, whatever its type. -/
def FSEventHandler.on_any_event (fn_to_run : FsEvent → List ProcAction)
    (event : FsEvent) : List ProcAction :=
  fn_to_run event

/-- Embeds `ProxyConnection._on_fs_event`: launches the stored command line
in the stored working directory with `subprocess.Popen` and then calls
`process.wait()` before returning. Logging is ignored. -/
def ProxyConnection._on_fs_event (c : ProxyConnection) (event : FsEvent) :
    List ProcAction :=
  [ProcAction.spawn c.command_line c.cwd, ProcAction.waitExit]

/-- Modelled from the spec: the `watchdog` library's
`PatternMatchingEventHandler` delivers events to the handler one at a time
on the watcher's single worker thread, forwarding only events passing the
pattern filter; the filter itself (allow/deny glob lists) is abstracted as
a predicate. The resulting process-action trace concatenates the handler's
actions in event order. -/
def dispatchEvents (passesFilter : FsEvent → Bool) (c : ProxyConnection)
    (events : List FsEvent) : List ProcAction :=
  events.flatMap (fun e =>
    if passesFilter e then FSEventHandler.on_any_event c._on_fs_event e else [])

/-- A sample `new_report_msg` for concrete evaluations. -/
def sampleMsg : NewReportMsg :=
  ⟨"abc", "/home/user", ["python", "app.py"], "/home/user/app.py"⟩

/-- A sample configuration with watching off. -/
def sampleCfg : Config := ⟨false, false, [], []⟩

/-- A start oracle under which every start attempt fails. -/
def sampleStartOk : StartOracle := fun _ => false

/-- A sample delta. -/
def sampleDelta : Delta := ⟨"b0"⟩

/-- A sample freshly constructed connection. -/
def sampleConn : ProxyConnection :=
  ProxyConnection.new sampleCfg sampleStartOk sampleMsg "demo"

/-- The sample connection after one subscriber attach. -/
def sampleConnAttached : ProxyConnection := (sampleConn.add_client_queue).1

/-- The attached sample connection after removing its one client queue. -/
def sampleConnDetached : ProxyConnection :=
  { sampleConnAttached with client_queues := [] }

/-- The sample connection after the producer finished. -/
def sampleConnClosed : ProxyConnection := sampleConn.finished_local_connection

/- ------------------------------------------------------------------ -/
/- Helper lemmas about iterated enqueue.                               -/
/- ------------------------------------------------------------------ -/

theorem enqueueAll_id (c : ProxyConnection) (ds : List Delta) :
    (enqueueAll c ds).id = c.id := by
  induction ds generalizing c with
  | nil => rfl
  | cons d ds ih => simpa [enqueueAll] using ih (c.enqueue d)

theorem enqueueAll_name (c : ProxyConnection) (ds : List Delta) :
    (enqueueAll c ds).name = c.name := by
  induction ds generalizing c with
  | nil => rfl
  | cons d ds ih => simpa [enqueueAll] using ih (c.enqueue d)

theorem enqueueAll_master (ds : List Delta) (c : ProxyConnection)
    (h : c.master_queue.closed = false) :
    (enqueueAll c ds).master_queue = ⟨c.master_queue.deltas ++ ds, false⟩ := by
  induction ds generalizing c with
  | nil =>
    cases hq : c.master_queue with
    | mk qs cl => simp [enqueueAll, hq]; rw [hq] at h; simpa using h.symm
  | cons d ds ih =>
    have h1 : (c.enqueue d).master_queue = ⟨c.master_queue.deltas ++ [d], false⟩ := by
      simp [ProxyConnection.enqueue, ReportQueue.append, h]
    have h2 : (c.enqueue d).master_queue.closed = false := by rw [h1]
    have := ih (c.enqueue d) h2
    rw [h1] at this
    simpa [enqueueAll, List.append_assoc] using this

theorem enqueueAll_clients_nil (ds : List Delta) (c : ProxyConnection)
    (h : c.client_queues = []) :
    (enqueueAll c ds).client_queues = [] := by
  induction ds generalizing c with
  | nil => simpa [enqueueAll] using h
  | cons d ds ih =>
    have h1 : (c.enqueue d).client_queues = [] := by
      simp [ProxyConnection.enqueue, h]
    simpa [enqueueAll] using ih (c.enqueue d) h1

theorem enqueueAll_client_at (ds : List Delta) (c : ProxyConnection)
    (i : Nat) (xs : List Delta)
    (h : c.client_queues.get? i = some ⟨xs, false⟩) :
    (enqueueAll c ds).client_queues.get? i = some ⟨xs ++ ds, false⟩ := by
  induction ds generalizing c xs with
  | nil => simpa [enqueueAll] using h
  | cons d ds ih =>
    have h1 : (c.enqueue d).client_queues.get? i = some ⟨xs ++ [d], false⟩ := by
      have ha : c.client_queues[i]? = some (⟨xs, false⟩ : ReportQueue) := by
        simpa [List.get?_eq_getElem?] using h
      simp [ProxyConnection.enqueue, List.get?_eq_getElem?, List.getElem?_map, ha,
        ReportQueue.append]
    have := ih (c.enqueue d) (xs ++ [d]) h1
    simpa [enqueueAll, List.append_assoc] using this

theorem enqueueAll_grace (ds : List Delta) (c : ProxyConnection) :
    (enqueueAll c ds).in_grace_period = c.in_grace_period := by
  induction ds generalizing c with
  | nil => rfl
  | cons d ds ih => simpa [enqueueAll] using ih (c.enqueue d)

/- ------------------------------------------------------------------ -/
/- C2: teardown eligibility.                                           -/
/- ------------------------------------------------------------------ -/

/-- C2. Teardown eligibility: `can_be_deregistered()` returns true exactly
when the grace period has ended, the producer is gone and the client queue
set is empty; it is false whenever any of the three conditions fails. -/
theorem C2_can_be_deregistered_iff (c : ProxyConnection) :
    c.can_be_deregistered = true ↔
      (c.in_grace_period = false ∧ c.has_local = false ∧ c.client_queues = []) := by
  unfold ProxyConnection.can_be_deregistered
  cases hg : c.in_grace_period <;> cases hl : c.has_local <;>
    cases hq : c.client_queues <;> simp [hg, hl, hq]

/- ------------------------------------------------------------------ -/
/- C1: replay completeness.                                            -/
/- ------------------------------------------------------------------ -/

/-- C1. Replay completeness: on a session on which deltas `ds` have been
enqueued, the cursor returned by `add_client_queue()` contains exactly `ds`
at attach, and after any further deltas `es` are enqueued the cursor holds
`ds ++ es`: the full sequence, in order, with no gaps and no duplicates. -/
theorem C1_replay_completeness (cfg : Config) (startOk : StartOracle)
    (msg : NewReportMsg) (name : String) (ds es : List Delta) :
    let c1 := enqueueAll (ProxyConnection.new cfg startOk msg name) ds
    let r := c1.add_client_queue
    r.2.1.deltas = ds ∧
    r.1.client_queues.get? r.2.2 = some ⟨ds, false⟩ ∧
    (enqueueAll r.1 es).client_queues.get? r.2.2 = some ⟨ds ++ es, false⟩ := by
  intro c1 r
  have hm : c1.master_queue = ⟨ds, false⟩ := by
    have := enqueueAll_master ds (ProxyConnection.new cfg startOk msg name) rfl
    simpa [ProxyConnection.new, ReportQueue.new] using this
  have hq : c1.client_queues = [] :=
    enqueueAll_clients_nil ds (ProxyConnection.new cfg startOk msg name) rfl
  have hr1 : r.2.1.deltas = ds := by
    simp [r, ProxyConnection.add_client_queue, ProxyConnection.end_grace_period,
      ReportQueue.clone, hm]
  have hidx : r.2.2 = 0 := by
    simp [r, ProxyConnection.add_client_queue, ProxyConnection.end_grace_period, hq]
  have hat : r.1.client_queues.get? r.2.2 = some ⟨ds, false⟩ := by
    simp [r, ProxyConnection.add_client_queue, ProxyConnection.end_grace_period,
      hq, hm, ReportQueue.clone, hidx]
  exact ⟨hr1, hat, enqueueAll_client_at es r.1 r.2.2 ds hat⟩

/- ------------------------------------------------------------------ -/
/- C3: post-close drop.                                                -/
/- ------------------------------------------------------------------ -/

/-- C3. Post-close drop: `finished_local_connection()` closes the master
queue, and on any connection whose master queue is closed, `enqueue(d)`
leaves the master queue, its delta count and the entries of
`serialize_report_to_files()` unchanged (and, being a total function,
raises no error). -/
theorem C3_post_close_drop (c : ProxyConnection) (d : Delta) (lid : String) :
    c.finished_local_connection.master_queue.closed = true ∧
    (c.master_queue.closed = true →
      (c.enqueue d).master_queue = c.master_queue ∧
      (c.enqueue d).master_queue.deltas.length = c.master_queue.deltas.length ∧
      ((c.enqueue d).serialize_report_to_files lid).1 =
        (c.serialize_report_to_files lid).1) := by
  refine ⟨rfl, fun h => ?_⟩
  have hm : (c.enqueue d).master_queue = c.master_queue := by
    simp [ProxyConnection.enqueue, ReportQueue.append, h]
  exact ⟨hm, by rw [hm],
    by simp [ProxyConnection.serialize_report_to_files, ProxyConnection.enqueue,
      ReportQueue.append, h]⟩

/-- Witness for C3 at a concrete closed session and delta. -/
theorem C3_post_close_drop_witness :
    sampleConnClosed.master_queue.closed = true ∧
    ((sampleConnClosed.enqueue sampleDelta).serialize_report_to_files "id0").1 =
      (sampleConnClosed.serialize_report_to_files "id0").1 :=
  ⟨rfl, ((C3_post_close_drop sampleConnClosed sampleDelta "id0").2 rfl).2.2⟩

/- ------------------------------------------------------------------ -/
/- C4: detach misuse.                                                  -/
/- ------------------------------------------------------------------ -/

/-- C4 counterexample: on the freshly constructed sample session (whose
client queue list is empty), detaching a never-attached cursor does raise —
`remove_client_queue` reports `ValueError`, contradicting the claim that it
never raises an exception. -/
theorem C4_counterexample :
    sampleConn.remove_client_queue ReportQueue.new = Except.error "ValueError" := by
  rfl

/-- C4 (amended). Detaching a cursor not in the client-queue set reports
the not-found condition by raising `ValueError` (Python `list.remove`);
it does not silently succeed. -/
theorem C4_remove_not_found_raises (c : ProxyConnection) (q : ReportQueue)
    (h : q ∉ c.client_queues) :
    c.remove_client_queue q = Except.error "ValueError" := by
  unfold ProxyConnection.remove_client_queue
  split
  · rename_i hmem
    exact absurd (by simpa using hmem) h
  · rfl

/-- Witness for the amended C4 at a concrete session and cursor. -/
theorem C4_remove_not_found_raises_witness :
    ReportQueue.new ∉ sampleConnClosed.client_queues ∧
    sampleConnClosed.remove_client_queue ReportQueue.new =
      Except.error "ValueError" :=
  ⟨by simp [sampleConnClosed, sampleConn, ProxyConnection.new,
      ProxyConnection.finished_local_connection],
    C4_remove_not_found_raises sampleConnClosed ReportQueue.new
      (by simp [sampleConnClosed, sampleConn, ProxyConnection.new,
        ProxyConnection.finished_local_connection])⟩

/- ------------------------------------------------------------------ -/
/- C5: archive shape.                                                  -/
/- ------------------------------------------------------------------ -/

/-- C5. Archive shape: on a session with id `msg.id`, name `name` and
enqueued deltas `ds`, `serialize_report_to_files()` returns exactly
`ds.length + 1` ordered entries: the manifest (name, process-local id,
`nDeltas`) under `reports/<id>/manifest.json`, then `reports/<id>/<k>.delta`
holding the serialized bytes of the k-th delta, in log order. -/
theorem C5_archive_shape (cfg : Config) (startOk : StartOracle)
    (msg : NewReportMsg) (name lid : String) (ds : List Delta) :
    ((enqueueAll (ProxyConnection.new cfg startOk msg name) ds).serialize_report_to_files
        lid).1 =
      ("reports/" ++ msg.id ++ "/manifest.json",
        json_dumps_manifest name lid ds.length) ::
      ds.enum.map (fun p =>
        ("reports/" ++ msg.id ++ "/" ++ toString p.1 ++ ".delta",
          p.2.SerializeToString)) := by
  have hm : (enqueueAll (ProxyConnection.new cfg startOk msg name) ds).master_queue =
      ⟨ds, false⟩ := by
    have := enqueueAll_master ds (ProxyConnection.new cfg startOk msg name) rfl
    simpa [ProxyConnection.new, ReportQueue.new] using this
  have hid : (enqueueAll (ProxyConnection.new cfg startOk msg name) ds).id = msg.id :=
    enqueueAll_id (ProxyConnection.new cfg startOk msg name) ds
  have hname : (enqueueAll (ProxyConnection.new cfg startOk msg name) ds).name = name :=
    enqueueAll_name (ProxyConnection.new cfg startOk msg name) ds
  simp only [ProxyConnection.serialize_report_to_files, hm, hid, hname,
    ReportQueue.clone, ReportQueue.get_deltas]

/- ------------------------------------------------------------------ -/
/- C6: watcher fallback asymmetry.                                     -/
/- ------------------------------------------------------------------ -/

/-- C6. Watcher fallback asymmetry: with watching on, if recursive mode is
requested and fails to start while flat mode starts, the session holds an
active flat watcher; if flat mode is requested and fails, no second attempt
is made (even when recursive mode would start) and the session has no
watcher; in every case construction succeeds and yields a session. -/
theorem C6_watcher_fallback (cfg : Config) (startOk : StartOracle)
    (msg : NewReportMsg) (name : String) :
    (cfg.watchFileSystem = true → cfg.watchUpdatesRecursively = true →
      startOk true = false → startOk false = true →
      (ProxyConnection.new cfg startOk msg name).fs_observer = some ⟨false⟩) ∧
    (cfg.watchFileSystem = true → cfg.watchUpdatesRecursively = false →
      startOk false = false →
      (ProxyConnection.new cfg startOk msg name).fs_observer = none) ∧
    ((ProxyConnection.new cfg startOk msg name).id = msg.id ∧
      (ProxyConnection.new cfg startOk msg name).name = name ∧
      (ProxyConnection.new cfg startOk msg name).has_local = true) := by
  refine ⟨fun h1 h2 h3 h4 => ?_, fun h1 h2 h3 => ?_, rfl, rfl, rfl⟩
  · simp [ProxyConnection.new, _initialize_fs_observer_with_fallback,
      _initialize_fs_observer, h1, h2, h3, h4]
  · simp [ProxyConnection.new, _initialize_fs_observer_with_fallback,
      _initialize_fs_observer, h1, h2, h3]

/-- Witness for C6: a concrete environment where only flat mode starts
yields a flat watcher, and one where flat is requested and fails (though
recursive would start) yields no watcher. -/
theorem C6_watcher_fallback_witness :
    (ProxyConnection.new ⟨true, true, [], []⟩ (fun b => !b) sampleMsg
        "demo").fs_observer = some ⟨false⟩ ∧
    (ProxyConnection.new ⟨true, false, [], []⟩ (fun b => b) sampleMsg
        "demo").fs_observer = none :=
  ⟨(C6_watcher_fallback ⟨true, true, [], []⟩ (fun b => !b) sampleMsg "demo").1
      rfl rfl rfl rfl,
    (C6_watcher_fallback ⟨true, false, [], []⟩ (fun b => b) sampleMsg "demo").2.1
      rfl rfl rfl⟩

/- ------------------------------------------------------------------ -/
/- C7: export is side-effect-free.                                     -/
/- ------------------------------------------------------------------ -/

/-- C7. Export purity: `serialize_report_to_files()` drains only a clone of
the master queue: the session state after the call is unchanged — master
queue contents and closed flag, client queues, grace-period flag and
producer flag — and calling it twice in a row yields the same entries. -/
theorem C7_serialize_side_effect_free (c : ProxyConnection) (lid : String) :
    (c.serialize_report_to_files lid).2 = c ∧
    (c.serialize_report_to_files lid).2.master_queue = c.master_queue ∧
    (c.serialize_report_to_files lid).2.client_queues = c.client_queues ∧
    (c.serialize_report_to_files lid).2.in_grace_period = c.in_grace_period ∧
    (c.serialize_report_to_files lid).2.has_local = c.has_local ∧
    (((c.serialize_report_to_files lid).2).serialize_report_to_files lid).1 =
      (c.serialize_report_to_files lid).1 :=
  ⟨rfl, rfl, rfl, rfl, rfl, rfl⟩

/- ------------------------------------------------------------------ -/
/- C8: attach clears the grace period and seeds from a clone.          -/
/- ------------------------------------------------------------------ -/

/-- C8. Attach semantics: on every session (producer attached or not, log
empty or not), `add_client_queue()` sets the grace-period flag to false and
returns a cursor equal to `clone()` of the master queue, which is appended
to the client-queue set; the master queue and producer flag are untouched. -/
theorem C8_attach_clears_grace_and_clones (c : ProxyConnection) :
    (c.add_client_queue).1.in_grace_period = false ∧
    (c.add_client_queue).2.1 = c.master_queue.clone ∧
    (c.add_client_queue).1.client_queues =
      c.client_queues ++ [c.master_queue.clone] ∧
    (c.add_client_queue).1.master_queue = c.master_queue ∧
    (c.add_client_queue).1.has_local = c.has_local :=
  ⟨rfl, rfl, rfl, rfl, rfl⟩

/- ------------------------------------------------------------------ -/
/- C9: grace-period monotonicity.                                      -/
/- ------------------------------------------------------------------ -/

/-- C9. Grace-period monotonicity: the flag is true at construction, and no
operation of the session turns it back to true once false: `enqueue`,
`add_client_queue`, `remove_client_queue`, `finished_local_connection`,
`end_grace_period`, `close` and `serialize_report_to_files` all preserve
falsehood (the observers `can_be_deregistered` and the entries of the
export return no state at all). -/
theorem C9_grace_period_monotone :
    (∀ (cfg : Config) (startOk : StartOracle) (msg : NewReportMsg) (name : String),
      (ProxyConnection.new cfg startOk msg name).in_grace_period = true) ∧
    (∀ (c : ProxyConnection) (d : Delta), c.in_grace_period = false →
      (c.enqueue d).in_grace_period = false) ∧
    (∀ c : ProxyConnection, (c.add_client_queue).1.in_grace_period = false) ∧
    (∀ (c c' : ProxyConnection) (q : ReportQueue), c.in_grace_period = false →
      c.remove_client_queue q = Except.ok c' → c'.in_grace_period = false) ∧
    (∀ c : ProxyConnection, c.in_grace_period = false →
      c.finished_local_connection.in_grace_period = false) ∧
    (∀ c : ProxyConnection, c.end_grace_period.in_grace_period = false) ∧
    (∀ c : ProxyConnection, c.close.in_grace_period = c.in_grace_period) ∧
    (∀ (c : ProxyConnection) (lid : String),
      (c.serialize_report_to_files lid).2.in_grace_period = c.in_grace_period) := by
  refine ⟨fun _ _ _ _ => rfl, fun c d h => h, fun c => rfl, ?_,
    fun c h => h, fun c => rfl, fun c => rfl, fun c lid => rfl⟩
  intro c c' q h hok
  unfold ProxyConnection.remove_client_queue at hok
  split at hok
  · cases hok
    exact h
  · simp at hok

/-- Witness for C9 at concrete sessions: the flag stays false across
enqueue, a successful remove and producer finish. -/
theorem C9_grace_period_monotone_witness :
    sampleConnAttached.in_grace_period = false ∧
    (sampleConnAttached.enqueue sampleDelta).in_grace_period = false ∧
    sampleConnAttached.remove_client_queue ReportQueue.new =
      Except.ok sampleConnDetached ∧
    sampleConnDetached.in_grace_period = false ∧
    sampleConnAttached.finished_local_connection.in_grace_period = false :=
  ⟨by decide,
    C9_grace_period_monotone.2.1 sampleConnAttached sampleDelta (by decide),
    by rfl,
    C9_grace_period_monotone.2.2.2.1 sampleConnAttached sampleConnDetached
      ReportQueue.new (by decide) (by rfl),
    C9_grace_period_monotone.2.2.2.2.1 sampleConnAttached (by decide)⟩

/- ------------------------------------------------------------------ -/
/- C10: every filtered event triggers a serialized re-run.             -/
/- ------------------------------------------------------------------ -/

/-- C10. Re-run on any filtered event: whatever its type (created,
modified, moved or deleted), an event passing the pattern filter makes the
handler launch the stored command line in the stored working directory and
wait for the process to exit; over a whole event list, each passing event
contributes its spawn-then-wait pair in order, so each process exit
precedes the next launch. -/
theorem C10_rerun_on_any_event (pf : FsEvent → Bool) (c : ProxyConnection) :
    (∀ (t : EventType) (p : String), pf ⟨t, p⟩ = true →
      dispatchEvents pf c [⟨t, p⟩] =
        [ProcAction.spawn c.command_line c.cwd, ProcAction.waitExit]) ∧
    (∀ events : List FsEvent,
      dispatchEvents pf c events =
        (events.filter pf).flatMap (fun _ =>
          [ProcAction.spawn c.command_line c.cwd, ProcAction.waitExit])) := by
  constructor
  · intro t p h
    simp [dispatchEvents, h, FSEventHandler.on_any_event,
      ProxyConnection._on_fs_event]
  · intro events
    induction events with
    | nil => rfl
    | cons e es ih =>
      simp only [dispatchEvents, List.flatMap_cons, List.filter_cons,
        FSEventHandler.on_any_event, ProxyConnection._on_fs_event] at ih ⊢
      by_cases h : pf e = true
      · simp [h, ih]
      · simp [h, ih]

/-- Witness for C10: a concrete deleted-file event passing an
all-accepting filter triggers exactly one launch of the stored command in
the stored directory followed by the wait for its exit. -/
theorem C10_rerun_on_any_event_witness :
    (fun (_ : FsEvent) => true) ⟨EventType.deleted, "/home/user/app.py"⟩ = true ∧
    dispatchEvents (fun _ => true) sampleConn
        [⟨EventType.deleted, "/home/user/app.py"⟩] =
      [ProcAction.spawn sampleConn.command_line sampleConn.cwd,
        ProcAction.waitExit] :=
  ⟨rfl, (C10_rerun_on_any_event (fun _ => true) sampleConn).1
    EventType.deleted "/home/user/app.py" rfl⟩
